import Mathlib

/-!
Shallow embedding of `pomdp_py/algorithms/pomcp.py` (POMCP: particle-belief
Monte-Carlo tree search planner) and proofs about it.

Modelling conventions:
- A `Particles` belief is a Lean `List S` (an ordered multiset of sampled
  states); Python's `copy.deepcopy` is content-preserving, so with value
  semantics it is the identity on contents.
- Python `float` values (node value estimates, rewards) are carried opaquely:
  no claim computes with them, so they are represented by `Int`.
- Randomness (`particles.random()`) is modelled by an oracle `rand : Nat → Nat`
  giving the index chosen at each loop iteration, reduced modulo the length of
  the list drawn from; uniformity itself is not formalised, only which
  collection each draw comes from.
- Exceptions are modelled by explicit error values; Python mutation of the
  agent is modelled by returning the agent state as it stands when the
  function returns or raises.
-/

set_option autoImplicit false

section POMCPModel

variable {S A O : Type}

/-- Errors surfaced by the planner, per the source:
`TypeError` for a non-particle belief in `plan`/`update`,
`ValueError("Particle deprivation.")` in `update` and
`_particle_reinvigoration`, and the unhandled `TypeError` that Python would
raise if `agent.tree[real_action]` yielded no action node (`None` is then
subscripted). -/
inductive UErr where
  | representationMismatch
  | particleDeprivation
  | missingActionBranch
  deriving DecidableEq, Repr

/-- The agent's belief representation: the source probes
`isinstance(agent.belief, Particles)`, i.e. the belief is either
particle-represented or some other distribution type. -/
inductive BeliefRep (S : Type) where
  | particles (ps : List S)
  | other
  deriving Repr

/-- `isinstance(agent.belief, Particles)` as a boolean probe. -/
def BeliefRep.isParticlesB : BeliefRep S → Bool
  | .particles _ => true
  | .other => false

mutual
/-- `VNodeParticles`: a belief node holding `num_visits`, `value`, a particle
`belief`, and `children` mapping actions to Q-nodes. -/
inductive VNodeP (S A O : Type) : Type where
  | mk (num_visits : Nat) (value : Int) (belief : List S)
       (children : List (A × QNodeP S A O))

/-- The external `QNode` base type (contract only, per the source import of
`po_uct`): visit count, value, and children mapping observations to either a
child belief node or the explicit never-simulated marker (stored `None`),
modelled as `some none`; an absent map entry is `none`. -/
inductive QNodeP (S A O : Type) : Type where
  | mk (num_visits : Nat) (value : Int)
       (children : List (O × Option (VNodeP S A O)))
end

def VNodeP.num_visits : VNodeP S A O → Nat
  | .mk nv _ _ _ => nv

def VNodeP.value : VNodeP S A O → Int
  | .mk _ v _ _ => v

def VNodeP.belief : VNodeP S A O → List S
  | .mk _ _ b _ => b

def VNodeP.children : VNodeP S A O → List (A × QNodeP S A O)
  | .mk _ _ _ c => c

def QNodeP.children : QNodeP S A O → List (O × Option (VNodeP S A O))
  | .mk _ _ c => c

/-- `root.belief.add(state)`: `Particles.add` appends a (copy of the) state to
the particle collection of the node. -/
def VNodeP.addBelief (s : S) : VNodeP S A O → VNodeP S A O
  | .mk nv v b c => .mk nv v (b ++ [s]) c

/-- `RootVNodeParticles`: a belief node that additionally stores the
action/observation `history` of the episode. -/
structure RootVNodeP (S A O : Type) where
  num_visits : Nat
  value : Int
  history : List (A × O)
  belief : List S
  children : List (A × QNodeP S A O)

/-- `RootVNodeParticles.from_vnode(vnode, history)`: builds a root node
reusing the subtree node's visit count, value, belief and children, with the
supplied history. -/
def RootVNodeP.from_vnode (v : VNodeP S A O) (history : List (A × O)) :
    RootVNodeP S A O :=
  { num_visits := v.num_visits
    value := v.value
    history := history
    belief := v.belief
    children := v.children }

/-- Association-list lookup, modelling a Python `dict` keyed by actions or
observations. -/
def alookup [DecidableEq A] {B : Type} : List (A × B) → A → Option B
  | [], _ => none
  | (k, v) :: rest, a => if k = a then some v else alookup rest a

/-- `tree[real_action]`: the root's children dict probed at an action (the
external base node returns the stored Q-node, or `None` when absent). -/
def rootGetQ [DecidableEq A] (tr : RootVNodeP S A O) (a : A) :
    Option (QNodeP S A O) :=
  alookup tr.children a

/-- `qnode[real_observation]`: the external Q-node subscript returns the
stored slot with default `None`; a stored never-simulated marker (`some none`)
and an absent entry (`none`) both surface as `none`, which is exactly what the
source's `is None` check observes. -/
def qnodeGetV [DecidableEq O] (q : QNodeP S A O) (o : O) :
    Option (VNodeP S A O) :=
  match alookup q.children o with
  | some slot => slot
  | none => none

/-- Optional `state_transform_func`: applied when supplied, identity
otherwise ("its absence means exact duplicates are inserted"). -/
def applyTransform (f : Option (S → S)) (s : S) : S :=
  match f with
  | some g => g s
  | none => s

/-- `particles.random()`: a uniform draw from a nonempty particle list,
with the oracle's index reduced modulo the length. -/
def drawFrom (particles : List S) (h : ¬ particles.length = 0) (idx : Nat) : S :=
  particles.get ⟨idx % particles.length, Nat.mod_lt _ (Nat.pos_of_ne_zero h)⟩

/-- `POMCP._particle_reinvigoration(particles, ..., num_particles,
state_transform_func)`: deep-copies `particles`; raises particle deprivation
when empty; returns the copy unchanged when strictly larger than
`num_particles`; otherwise appends one synthesized particle per iteration
until the size reaches `num_particles`, each drawn (via `rand`) from the
ORIGINAL `particles`, copied, and optionally transformed. The while loop is
rendered as an append of `num_particles - length` synthesized elements, one
per iteration `i`. -/
def particle_reinvigoration (particles : List S) (num_particles : Nat)
    (state_transform_func : Option (S → S)) (rand : Nat → Nat) :
    Except UErr (List S) :=
  if h : particles.length = 0 then
    .error .particleDeprivation
  else if particles.length > num_particles then
    .ok particles
  else
    .ok (particles ++ (List.range (num_particles - particles.length)).map
      (fun i => applyTransform state_transform_func (drawFrom particles h (rand i))))

/-- The owning agent, per the external contract the source relies on: a
belief (tagged by representation), an append-only history, an optional tree
handle (`none` models the `tree` attribute being absent, i.e. `hasattr`
failing), and the initial belief whose particle count is the reinvigoration
target. -/
structure AgentT (S A O : Type) where
  belief : BeliefRep S
  history : List (A × O)
  tree : Option (RootVNodeP S A O)
  init_belief : List S

/-- Outcome of `POMCP.update`: the agent as it stands when the call returns
or raises (`err = some _`), whether the missing-tree warning was printed, and
whether the defensive `agent.tree is None` branch after the transplant was
entered. -/
structure UpdateResult (S A O : Type) where
  agent : AgentT S A O
  err : Option UErr
  warned : Bool
  deadBranch : Bool

/-- `POMCP.update(agent, real_action, real_observation, ...,
state_transform_func)`. Faithful rendering of the source in order:
representation check, `hasattr(agent, "tree")` check (warning + return),
`tree[real_action][real_observation] is None` check (particle deprivation),
transplant via `RootVNodeParticles.from_vnode(child, agent.history)`,
reinvigoration of the transplanted belief to `len(agent.init_belief.particles)`,
`agent.set_belief(...)`, and finally the `agent.tree is None` test.
In the source, that test's then-branch constructs
`RootVNodeParticles(self._num_visits_init, self._value_init,
copy.deepcopy(agent.belief), agent.history)`, which passes the belief where
the `history` parameter stands and the history where `belief` stands — this
does not typecheck in a typed embedding. The branch is provably unreachable
(the transplant just assigned a freshly constructed root), so the model
records entry through the `deadBranch` flag and leaves the agent as it stands
just before the ill-typed construction. -/
def POMCP.update [DecidableEq A] [DecidableEq O]
    (ag : AgentT S A O) (real_action : A) (real_observation : O)
    (state_transform_func : Option (S → S)) (rand : Nat → Nat) :
    UpdateResult S A O :=
  if BeliefRep.isParticlesB ag.belief = false then
    { agent := ag, err := some .representationMismatch,
      warned := false, deadBranch := false }
  else
    match ag.tree with
    | none =>
        { agent := ag, err := none, warned := true, deadBranch := false }
    | some tr =>
        match rootGetQ tr real_action with
        | none =>
            { agent := ag, err := some .missingActionBranch,
              warned := false, deadBranch := false }
        | some q =>
            match qnodeGetV q real_observation with
            | none =>
                { agent := ag, err := some .particleDeprivation,
                  warned := false, deadBranch := false }
            | some child =>
                let newRoot := RootVNodeP.from_vnode child ag.history
                let ag1 : AgentT S A O := { ag with tree := some newRoot }
                match particle_reinvigoration newRoot.belief
                    ag.init_belief.length state_transform_func rand with
                | .error e =>
                    { agent := ag1, err := some e,
                      warned := false, deadBranch := false }
                | .ok newBel =>
                    let ag2 : AgentT S A O :=
                      { ag1 with belief := .particles newBel }
                    match ag2.tree with
                    | none =>
                        { agent := ag2, err := none,
                          warned := false, deadBranch := true }
                    | some t2 =>
                        { agent :=
                            { ag2 with
                              tree := some { t2 with belief := newBel } }
                          err := none, warned := false, deadBranch := false }

/-- `POMCP.plan(agent)`: probes the belief representation and either raises
the representation-mismatch `TypeError` before any search work, or delegates
to the external `POUCT.plan` loop (supplied as the oracle `basePlan`, which
returns the chosen action and the agent as mutated by the search). The result
is (error, chosen action, agent state on return). -/
def POMCP.plan (basePlan : AgentT S A O → A × AgentT S A O)
    (ag : AgentT S A O) : Option UErr × Option A × AgentT S A O :=
  if BeliefRep.isParticlesB ag.belief then
    let p := basePlan ag
    (none, some p.1, p.2)
  else
    (some .representationMismatch, none, ag)

/-- `POMCP._simulate(state, history, root, parent, observation, depth)`:
delegates to the external `POUCT._simulate` (whose returned reward is
`baseReward` and whose mutations leave the root handle in the state `root`
passed here), then, iff `depth == 1 and root is not None`, appends the
sampled state to the root node's belief. Returns (total reward, root node
state afterwards). -/
def POMCP.simulate_hook (baseReward : Int) (root : Option (VNodeP S A O))
    (state : S) (depth : Nat) : Int × Option (VNodeP S A O) :=
  (baseReward,
   if depth = 1 then Option.map (VNodeP.addBelief state) root else root)

end POMCPModel

section DefaultArgModel

variable {S : Type}

/-!
Reference-semantics model of node construction, needed because
`VNodeParticles.__init__(self, num_visits, value, belief=Particles([]))`
uses a MUTABLE DEFAULT ARGUMENT: Python evaluates `Particles([])` once, at
function-definition time, so every construction that omits the `belief`
argument binds `self.belief` to the one shared default `Particles` object,
while a construction that passes `belief=Particles([])` explicitly (as
`POMCP._VNode` does when `agent is None`) allocates a fresh object. Beliefs
are therefore modelled as references (indices) into a store of particle
lists. -/

/-- The store of live `Particles` objects: cell `i` holds the particle list
of object `i`. -/
structure PStore (S : Type) where
  cells : List (List S)

/-- The reference to the single default `Particles([])` object created when
the `def __init__` line of `VNodeParticles` is executed (module load). -/
def defaultBeliefRef : Nat := 0

/-- The store at module load: only the shared default `Particles([])`
object exists, at cell `defaultBeliefRef`. -/
def initStore (S : Type) : PStore S := ⟨[[]]⟩

/-- A `VNodeParticles` with its belief held by reference into the store
(children and string rendering are irrelevant to the aliasing question and
omitted). -/
structure VNodeRec (S : Type) where
  num_visits : Nat
  value : Int
  beliefRef : Nat

/-- `VNodeParticles(num_visits, value)` — constructed WITHOUT an explicit
belief argument: `self.belief` is bound to the shared default object. -/
def mkVNodeDefault (S : Type) (num_visits : Nat) (value : Int) : VNodeRec S :=
  { num_visits := num_visits, value := value, beliefRef := defaultBeliefRef }

/-- `POMCP._VNode(agent=None, root=False)`: constructs
`VNodeParticles(num_visits_init, value_init, belief=Particles([]))` — the
explicit `Particles([])` argument is evaluated at call time, allocating a
fresh empty object in the store. -/
def mkVNodeNoAgent (st : PStore S) (num_visits : Nat) (value : Int) :
    VNodeRec S × PStore S :=
  ({ num_visits := num_visits, value := value, beliefRef := st.cells.length },
   ⟨st.cells ++ [[]]⟩)

/-- `node.belief.add(state)`: mutates the `Particles` object the node's
belief refers to. -/
def addParticle (st : PStore S) (n : VNodeRec S) (s : S) : PStore S :=
  ⟨st.cells.set n.beliefRef ((st.cells.getD n.beliefRef []) ++ [s])⟩

/-- The particle list currently held by the node's belief object. -/
def beliefOf (st : PStore S) (n : VNodeRec S) : List S :=
  st.cells.getD n.beliefRef []

end DefaultArgModel

section ConcreteInputs

/-!
Concrete instances (states, actions and observations all `Nat`) used by the
counterexample and witness theorems below.
-/

/-- A depth-1 child node with two particles in its belief `[1, 2]`. -/
def exChildC1 : VNodeP Nat Nat Nat := .mk 4 0 [1, 2] []

/-- A Q-node whose slot for observation `7` holds `exChildC1`. -/
def exQC1 : QNodeP Nat Nat Nat := .mk 5 0 [(7, some exChildC1)]

/-- A root whose branch for action `3` is `exQC1`; its history already has
the real step `(3, 7)` appended. -/
def exTreeC1 : RootVNodeP Nat Nat Nat :=
  { num_visits := 9, value := 0, history := [(3, 7)], belief := [0],
    children := [(3, exQC1)] }

/-- An agent with a one-particle initial belief (reinvigoration target 1)
whose tree's transplant target `exChildC1` holds two particles. -/
def exAgentC1 : AgentT Nat Nat Nat :=
  { belief := .particles [5], history := [(3, 7)], tree := some exTreeC1,
    init_belief := [0] }

/-- An agent whose belief is not particle-represented. -/
def exAgentOther : AgentT Nat Nat Nat :=
  { belief := .other, history := [], tree := none, init_belief := [0, 1] }

/-- An agent with a particle belief and no tree attribute (no prior plan). -/
def exAgentNoTree : AgentT Nat Nat Nat :=
  { belief := .particles [5, 6], history := [(1, 2)], tree := none,
    init_belief := [0, 1] }

/-- A Q-node whose slot for observation `7` holds the explicit
never-simulated marker (stored `None`). -/
def exQMarker : QNodeP Nat Nat Nat := .mk 5 0 [(7, none)]

/-- A root whose branch for action `3` leads to the marker slot. -/
def exTreeMarker : RootVNodeP Nat Nat Nat :=
  { num_visits := 9, value := 0, history := [(3, 7)], belief := [0],
    children := [(3, exQMarker)] }

/-- An agent whose tree has only the never-simulated marker under the real
(action, observation) pair `(3, 7)`. -/
def exAgentMarker : AgentT Nat Nat Nat :=
  { belief := .particles [5], history := [(3, 7)], tree := some exTreeMarker,
    init_belief := [0] }

/-- A node with one particle `9` in its belief, used at simulation depth 1. -/
def exNodeC9 : VNodeP Nat Nat Nat := .mk 1 0 [9] []

end ConcreteInputs

section ReinvigorationLemmas

variable {S A O : Type}

/-- Reinvigoration of an empty particle set raises particle deprivation. -/
lemma reinvigoration_empty_error (N : Nat) (f : Option (S → S)) (r : Nat → Nat) :
    particle_reinvigoration ([] : List S) N f r = .error .particleDeprivation := by
  simp [particle_reinvigoration]

/-- On a nonempty particle set, reinvigoration succeeds and the output size
is the maximum of the input size and the target. -/
lemma reinvigoration_ok_max_length (ps : List S) (N : Nat)
    (f : Option (S → S)) (r : Nat → Nat) (h0 : ¬ ps.length = 0) :
    ∃ out, particle_reinvigoration ps N f r = .ok out ∧
      out.length = max ps.length N := by
  unfold particle_reinvigoration
  rw [dif_neg h0]
  by_cases hgt : ps.length > N
  · rw [if_pos hgt]
    exact ⟨ps, rfl, (Nat.max_eq_left (le_of_lt hgt)).symm⟩
  · rw [if_neg hgt]
    refine ⟨_, rfl, ?_⟩
    simp only [List.length_append, List.length_map, List.length_range]
    omega

/-- The only error reinvigoration can raise is particle deprivation. -/
lemma reinvigoration_error_is_deprivation (ps : List S) (N : Nat)
    (f : Option (S → S)) (r : Nat → Nat) (e : UErr)
    (h : particle_reinvigoration ps N f r = .error e) :
    e = .particleDeprivation := by
  unfold particle_reinvigoration at h
  by_cases h0 : ps.length = 0
  · rw [dif_pos h0] at h
    injection h with h2
    exact h2.symm
  · rw [dif_neg h0] at h
    by_cases hgt : ps.length > N
    · rw [if_pos hgt] at h
      exact absurd h (by simp)
    · rw [if_neg hgt] at h
      exact absurd h (by simp)

end ReinvigorationLemmas

section ClaimTheorems

variable {S A O : Type}

/-- C4: for every nonempty particle belief of size k and every target N with
k < N, reinvigoration returns a belief of size exactly N containing all of
the original elements, plus N − k new elements each equal to an (optionally
transformed) copy of some element drawn from the ORIGINAL input belief. -/
theorem reinvigoration_extends_to_target (ps : List S) (N : Nat)
    (f : Option (S → S)) (r : Nat → Nat)
    (h0 : 0 < ps.length) (hlt : ps.length < N) :
    ∃ extra, particle_reinvigoration ps N f r = .ok (ps ++ extra) ∧
      (ps ++ extra).length = N ∧ extra.length = N - ps.length ∧
      ∀ s ∈ extra, ∃ x ∈ ps, s = applyTransform f x := by
  have hne : ¬ ps.length = 0 := by omega
  unfold particle_reinvigoration
  rw [dif_neg hne, if_neg (by omega)]
  refine ⟨_, rfl, ?_, ?_, ?_⟩
  · simp only [List.length_append, List.length_map, List.length_range]
    omega
  · simp only [List.length_map, List.length_range]
  · intro s hs
    simp only [List.mem_map, List.mem_range] at hs
    obtain ⟨i, _, rfl⟩ := hs
    exact ⟨drawFrom ps hne (r i), List.get_mem _ _ _, rfl⟩

theorem reinvigoration_extends_to_target_witness :
    ∃ extra, particle_reinvigoration [1, 2] 4 none (fun i => i) =
        .ok ([1, 2] ++ extra) ∧
      ([1, 2] ++ extra).length = 4 ∧ extra.length = 4 - [1, 2].length ∧
      ∀ s ∈ extra, ∃ x ∈ [1, 2], s = applyTransform none x :=
  reinvigoration_extends_to_target [1, 2] 4 none (fun i => i)
    (by decide) (by decide)

/-- C6: for every particle belief with size at least the (positive) target,
reinvigoration returns the belief content-equal and unchanged in size — no
particle is synthesized and none is removed. (Independence of the returned
copy is the `copy.deepcopy` at the head of the source function; under the
value semantics of this embedding content equality is the statable part.) -/
theorem reinvigoration_at_or_above_target_copy (ps : List S) (N : Nat)
    (f : Option (S → S)) (r : Nat → Nat)
    (hN : 0 < N) (hge : N ≤ ps.length) :
    particle_reinvigoration ps N f r = .ok ps := by
  have h0 : ¬ ps.length = 0 := by omega
  unfold particle_reinvigoration
  rw [dif_neg h0]
  by_cases hgt : ps.length > N
  · rw [if_pos hgt]
  · rw [if_neg hgt]
    have heq : N - ps.length = 0 := by omega
    simp [heq]

theorem reinvigoration_at_or_above_target_copy_witness :
    0 < 2 ∧ 2 ≤ [4, 5, 6].length ∧
      particle_reinvigoration [4, 5, 6] 2 none (fun i => i) = .ok [4, 5, 6] :=
  ⟨by decide, by decide,
   reinvigoration_at_or_above_target_copy [4, 5, 6] 2 none (fun i => i)
     (by decide) (by decide)⟩

/-- C7: reinvigoration applied to an empty particle belief fails with a
particle-deprivation error, for every positive target. -/
theorem reinvigoration_empty_deprivation (N : Nat) (f : Option (S → S))
    (r : Nat → Nat) (_hN : 0 < N) :
    particle_reinvigoration ([] : List S) N f r = .error .particleDeprivation := by
  simp [particle_reinvigoration]

theorem reinvigoration_empty_deprivation_witness :
    0 < 3 ∧ particle_reinvigoration ([] : List Nat) 3 none (fun i => i) =
      .error .particleDeprivation :=
  ⟨by decide, reinvigoration_empty_deprivation 3 none (fun i => i) (by decide)⟩

/-- C3: for an agent with a particle belief but no tree from a prior plan
call, `update` is a soft no-op: it only warns, raises no error, and leaves
the agent (belief, history, tree) unchanged. -/
theorem pomcp_update_no_tree_noop [DecidableEq A] [DecidableEq O]
    (ag : AgentT S A O) (a : A) (o : O)
    (f : Option (S → S)) (r : Nat → Nat)
    (hb : BeliefRep.isParticlesB ag.belief = true)
    (ht : ag.tree = none) :
    (POMCP.update ag a o f r).agent = ag ∧
      (POMCP.update ag a o f r).warned = true ∧
      (POMCP.update ag a o f r).err = none ∧
      (POMCP.update ag a o f r).deadBranch = false := by
  simp [POMCP.update, hb, ht]

theorem pomcp_update_no_tree_noop_witness :
    (POMCP.update exAgentNoTree 1 2 none (fun i => i)).agent = exAgentNoTree ∧
      (POMCP.update exAgentNoTree 1 2 none (fun i => i)).warned = true ∧
      (POMCP.update exAgentNoTree 1 2 none (fun i => i)).err = none ∧
      (POMCP.update exAgentNoTree 1 2 none (fun i => i)).deadBranch = false :=
  pomcp_update_no_tree_noop exAgentNoTree 1 2 none (fun i => i) rfl rfl

/-- C5: for an agent with a particle belief and an existing tree, if the
child slot of the current root under the real action for the real
observation holds the explicit never-simulated marker (a stored `None`),
`update` fails with the particle-deprivation error and the agent's belief
and tree are unchanged by the failed call. -/
theorem pomcp_update_marker_deprivation [DecidableEq A] [DecidableEq O]
    (ag : AgentT S A O) (a : A) (o : O)
    (f : Option (S → S)) (r : Nat → Nat)
    (tr : RootVNodeP S A O) (q : QNodeP S A O)
    (hb : BeliefRep.isParticlesB ag.belief = true)
    (ht : ag.tree = some tr)
    (hq : rootGetQ tr a = some q)
    (hmarker : alookup q.children o = some none) :
    (POMCP.update ag a o f r).err = some .particleDeprivation ∧
      (POMCP.update ag a o f r).agent = ag ∧
      (POMCP.update ag a o f r).warned = false := by
  have hg : qnodeGetV q o = none := by
    unfold qnodeGetV
    rw [hmarker]
  simp [POMCP.update, hb, ht, hq, hg]

theorem pomcp_update_marker_deprivation_witness :
    (POMCP.update exAgentMarker 3 7 none (fun i => i)).err =
        some .particleDeprivation ∧
      (POMCP.update exAgentMarker 3 7 none (fun i => i)).agent = exAgentMarker ∧
      (POMCP.update exAgentMarker 3 7 none (fun i => i)).warned = false :=
  pomcp_update_marker_deprivation exAgentMarker 3 7 none (fun i => i)
    exTreeMarker exQMarker rfl rfl rfl rfl

/-- C1 (counterexample): a successful `update` whose precondition holds
(history already carries the real step, the child for the real observation
exists) can leave the new root with MORE particles than the originally
configured target count: here the transplanted subtree holds two particles,
the initial belief holds one, and reinvigoration returns the oversized set
unchanged, so the new root's belief size is 2 while the target is 1. -/
theorem pomcp_update_target_size_counterexample :
    (POMCP.update exAgentC1 3 7 none (fun i => i)).err = none ∧
      exAgentC1.history = [] ++ [(3, 7)] ∧
      rootGetQ exTreeC1 3 = some exQC1 ∧
      qnodeGetV exQC1 7 = some exChildC1 ∧
      (POMCP.update exAgentC1 3 7 none (fun i => i)).agent.tree.map
          (fun t => t.belief.length) = some 2 ∧
      exAgentC1.init_belief.length = 1 ∧
      (2 : Nat) ≠ 1 :=
  ⟨rfl, rfl, rfl, rfl, rfl, rfl, by decide⟩

/-- C1 (amended): after a successful `update` whose precondition holds, the
new root's history equals the old history with the real (action, observation)
pair appended, and the new root's belief size equals the MAXIMUM of the
transplanted subtree's belief size and the originally configured target
particle count — in particular it equals the target whenever the subtree's
belief does not exceed the target. -/
theorem pomcp_update_history_and_reinvigorated_size
    [DecidableEq A] [DecidableEq O]
    (ag : AgentT S A O) (a : A) (o : O)
    (f : Option (S → S)) (r : Nat → Nat) (oldH : List (A × O))
    (tr : RootVNodeP S A O) (q : QNodeP S A O) (child : VNodeP S A O)
    (hb : BeliefRep.isParticlesB ag.belief = true)
    (ht : ag.tree = some tr)
    (hh : ag.history = oldH ++ [(a, o)])
    (hq : rootGetQ tr a = some q)
    (hc : qnodeGetV q o = some child)
    (hsucc : (POMCP.update ag a o f r).err = none) :
    ∃ newRoot, (POMCP.update ag a o f r).agent.tree = some newRoot ∧
      newRoot.history = oldH ++ [(a, o)] ∧
      newRoot.belief.length = max child.belief.length ag.init_belief.length ∧
      (child.belief.length ≤ ag.init_belief.length →
        newRoot.belief.length = ag.init_belief.length) := by
  by_cases h0 : child.belief.length = 0
  · exfalso
    have hcb : child.belief = [] := List.length_eq_zero.mp h0
    simp [POMCP.update, hb, ht, hq, hc, RootVNodeP.from_vnode, hcb,
      reinvigoration_empty_error] at hsucc
  · obtain ⟨out, hout, hlen⟩ :=
      reinvigoration_ok_max_length child.belief ag.init_belief.length f r h0
    refine ⟨{ num_visits := child.num_visits, value := child.value,
              history := ag.history, belief := out,
              children := child.children }, ?_, ?_, ?_, ?_⟩
    · simp [POMCP.update, hb, ht, hq, hc, RootVNodeP.from_vnode, hout]
    · exact hh
    · exact hlen
    · intro hle
      rw [hlen]
      omega

theorem pomcp_update_history_and_reinvigorated_size_witness :
    ∃ newRoot,
      (POMCP.update exAgentC1 3 7 none (fun i => i)).agent.tree =
          some newRoot ∧
        newRoot.history = [] ++ [(3, 7)] ∧
        newRoot.belief.length =
          max exChildC1.belief.length exAgentC1.init_belief.length ∧
        (exChildC1.belief.length ≤ exAgentC1.init_belief.length →
          newRoot.belief.length = exAgentC1.init_belief.length) :=
  pomcp_update_history_and_reinvigorated_size exAgentC1 3 7 none (fun i => i)
    [] exTreeC1 exQC1 exChildC1 rfl rfl rfl rfl rfl rfl

/-- C10: every execution of `update` that passes the never-simulated-marker
check and performs the subtree transplant assigns a freshly constructed
(non-null) root, so the defensive branch that would rebuild a brand-new root
from the reinvigorated belief is unreachable; when reinvigoration succeeds,
the only branch that executes installs the reinvigorated belief into the
transplanted root. -/
theorem pomcp_update_dead_branch_unreachable
    [DecidableEq A] [DecidableEq O]
    (ag : AgentT S A O) (a : A) (o : O)
    (f : Option (S → S)) (r : Nat → Nat)
    (tr : RootVNodeP S A O) (q : QNodeP S A O) (child : VNodeP S A O)
    (hb : BeliefRep.isParticlesB ag.belief = true)
    (ht : ag.tree = some tr)
    (hq : rootGetQ tr a = some q)
    (hc : qnodeGetV q o = some child) :
    (POMCP.update ag a o f r).deadBranch = false ∧
      ∀ bel,
        particle_reinvigoration child.belief ag.init_belief.length f r =
          .ok bel →
        (POMCP.update ag a o f r).agent.tree =
          some { RootVNodeP.from_vnode child ag.history with belief := bel } := by
  constructor
  · rcases hre : particle_reinvigoration child.belief ag.init_belief.length f r
      with e | out
    · simp [POMCP.update, hb, ht, hq, hc, RootVNodeP.from_vnode, hre]
    · simp [POMCP.update, hb, ht, hq, hc, RootVNodeP.from_vnode, hre]
  · intro bel hbel
    simp [POMCP.update, hb, ht, hq, hc, RootVNodeP.from_vnode, hbel]

theorem pomcp_update_dead_branch_unreachable_witness :
    (POMCP.update exAgentC1 3 7 none (fun i => i)).deadBranch = false ∧
      (POMCP.update exAgentC1 3 7 none (fun i => i)).agent.tree =
        some { RootVNodeP.from_vnode exChildC1 exAgentC1.history with
                 belief := [1, 2] } := by
  have h := pomcp_update_dead_branch_unreachable exAgentC1 3 7 none
    (fun i => i) exTreeC1 exQC1 exChildC1 rfl rfl rfl rfl
  exact ⟨h.1, h.2 [1, 2] rfl⟩

/-- With a particle-represented belief, `update` never raises the
representation-mismatch error: every branch of the source past the opening
`isinstance` check returns normally or raises particle deprivation (or the
`None`-subscript crash on a missing action branch). -/
lemma update_err_not_mismatch_of_particles [DecidableEq A] [DecidableEq O]
    (ag : AgentT S A O) (a : A) (o : O)
    (f : Option (S → S)) (r : Nat → Nat)
    (hb : BeliefRep.isParticlesB ag.belief = true) :
    (POMCP.update ag a o f r).err ≠ some .representationMismatch := by
  rcases htr : ag.tree with _ | tr
  · simp [POMCP.update, hb, htr]
  · rcases hq : rootGetQ tr a with _ | q
    · simp [POMCP.update, hb, htr, hq]
    · rcases hcv : qnodeGetV q o with _ | child
      · simp [POMCP.update, hb, htr, hq, hcv]
      · rcases hre : particle_reinvigoration child.belief
            ag.init_belief.length f r with e | out
        · have he := reinvigoration_error_is_deprivation _ _ _ _ _ hre
          subst he
          simp [POMCP.update, hb, htr, hq, hcv, RootVNodeP.from_vnode, hre]
        · simp [POMCP.update, hb, htr, hq, hcv, RootVNodeP.from_vnode, hre]

/-- C8: for an agent whose belief is not particle-represented, both `plan`
and `update` fail with the representation-mismatch error before doing any
work (the agent is returned untouched and no warning fires); for an agent
whose belief is particle-represented, neither operation raises this error. -/
theorem pomcp_plan_update_representation_guard [DecidableEq A] [DecidableEq O]
    (basePlan : AgentT S A O → A × AgentT S A O)
    (ag : AgentT S A O) (a : A) (o : O)
    (f : Option (S → S)) (r : Nat → Nat) :
    ((POMCP.plan basePlan ag).1 = some .representationMismatch ↔
       BeliefRep.isParticlesB ag.belief = false) ∧
      ((POMCP.update ag a o f r).err = some .representationMismatch ↔
        BeliefRep.isParticlesB ag.belief = false) ∧
      (BeliefRep.isParticlesB ag.belief = false →
        (POMCP.plan basePlan ag).2.2 = ag ∧
          (POMCP.update ag a o f r).agent = ag ∧
          (POMCP.update ag a o f r).warned = false) := by
  by_cases hb : BeliefRep.isParticlesB ag.belief = true
  · refine ⟨?_, ?_, ?_⟩
    · simp [POMCP.plan, hb]
    · simp [hb, update_err_not_mismatch_of_particles ag a o f r hb]
    · intro hfalse
      rw [hb] at hfalse
      cases hfalse
  · have hbf : BeliefRep.isParticlesB ag.belief = false := by
      cases hB : BeliefRep.isParticlesB ag.belief
      · rfl
      · exact absurd hB hb
    refine ⟨?_, ?_, fun _ => ⟨?_, ?_, ?_⟩⟩ <;>
      simp [POMCP.plan, POMCP.update, hbf]

theorem pomcp_plan_update_representation_guard_witness :
    (POMCP.plan (fun x => (0, x)) exAgentOther).1 =
        some .representationMismatch ∧
      (POMCP.update exAgentOther 0 0 none (fun i => i)).err =
        some .representationMismatch ∧
      (POMCP.plan (fun x => (0, x)) exAgentOther).2.2 = exAgentOther ∧
      (POMCP.update exAgentOther 0 0 none (fun i => i)).agent =
        exAgentOther ∧
      (POMCP.plan (fun x => (0, x)) exAgentNoTree).1 ≠
        some .representationMismatch ∧
      (POMCP.update exAgentNoTree 1 2 none (fun i => i)).err ≠
        some .representationMismatch := by
  have h1 := pomcp_plan_update_representation_guard (fun x => (0, x))
    exAgentOther 0 0 none (fun i => i)
  have h2 := pomcp_plan_update_representation_guard (fun x => (0, x))
    exAgentNoTree 1 2 none (fun i => i)
  refine ⟨h1.1.mpr rfl, h1.2.1.mpr rfl, (h1.2.2 rfl).1, (h1.2.2 rfl).2.1,
    ?_, ?_⟩
  · intro hcontra
    exact absurd (h2.1.mp hcontra) (by decide)
  · intro hcontra
    exact absurd (h2.2.1.mp hcontra) (by decide)

/-- C9: the simulate hook returns exactly the base engine's total reward;
when the recursion depth is 1 and a root handle is present, the sampled
state is appended to the root's belief (the root's belief becomes its prior
content plus that one state); when the depth is not 1 or the root handle is
null, the root is left unchanged. -/
theorem pomcp_simulate_depth_one_belief_deposit (br : Int)
    (root : Option (VNodeP S A O)) (s : S) (d : Nat) :
    (POMCP.simulate_hook br root s d).1 = br ∧
      (∀ v : VNodeP S A O, d = 1 → root = some v →
        (POMCP.simulate_hook br root s d).2 = some (VNodeP.addBelief s v) ∧
          (VNodeP.addBelief s v).belief = v.belief ++ [s]) ∧
      (d ≠ 1 → (POMCP.simulate_hook br root s d).2 = root) ∧
      (root = none → (POMCP.simulate_hook br root s d).2 = none) := by
  refine ⟨rfl, ?_, ?_, ?_⟩
  · intro v hd hr
    subst hd
    subst hr
    refine ⟨by simp [POMCP.simulate_hook], ?_⟩
    cases v
    simp [VNodeP.addBelief, VNodeP.belief]
  · intro hd
    simp [POMCP.simulate_hook, hd]
  · intro hr
    subst hr
    simp [POMCP.simulate_hook]

theorem pomcp_simulate_depth_one_belief_deposit_witness :
    (POMCP.simulate_hook 5 (some exNodeC9) 3 1).1 = 5 ∧
      (POMCP.simulate_hook 5 (some exNodeC9) 3 1).2 =
        some (VNodeP.addBelief 3 exNodeC9) ∧
      (VNodeP.addBelief 3 exNodeC9).belief = [9] ++ [3] := by
  have h := pomcp_simulate_depth_one_belief_deposit 5 (some exNodeC9) 3 1
  exact ⟨h.1, (h.2.1 exNodeC9 rfl rfl).1, (h.2.1 exNodeC9 rfl rfl).2⟩

/-- C2 (code evaluation at the failing input): `VNodeParticles.__init__`
declares `belief=Particles([])` as a default argument, which Python
evaluates once at function-definition time, so two distinct nodes
constructed without an explicit belief argument share the single default
`Particles` object: adding a particle through the first node makes it
visible through the second node's belief, contradicting independence. By
contrast, two nodes built through `POMCP._VNode(agent=None)` each receive a
freshly evaluated `Particles([])` and are independent. -/
theorem vnode_default_belief_sharing_evaluation :
    beliefOf (addParticle (initStore Nat) (mkVNodeDefault Nat 1 0) 42)
        (mkVNodeDefault Nat 2 0) = [42] ∧
      beliefOf
          (addParticle
            ((mkVNodeNoAgent ((mkVNodeNoAgent (initStore Nat) 1 0).2) 1 0).2)
            (mkVNodeNoAgent (initStore Nat) 1 0).1 42)
          ((mkVNodeNoAgent ((mkVNodeNoAgent (initStore Nat) 1 0).2) 1 0).1) =
        [] :=
  ⟨rfl, rfl⟩

end ClaimTheorems
